import Mathlib

/-!
Verification development for the smart-investment portfolio optimizer
(src/app.py, function optimize_portfolio and its inner helper
negative_sharpe_ratio).

External collaborators are modelled as oracle parameters:
  * yfinance market data   — fetch : List (List Char) → FetchedData
  * the SLSQP solver       — solver : OptProblem → SolverResult
  * np.random.random       — rng : ℕ → List ℚ
  * np.sqrt on floats      — sqrtFn : ℚ → ℚ
Prices, returns, weights and covariances are rationals; missing price
cells (NaN) are `Option.none`; ticker strings are lists of characters so
that Python string splitting, stripping and uppercasing can be modelled
exactly.
-/

/-- Dot product of two equal-length vectors, as np.dot on 1-d arrays. -/
def dot (a b : List ℚ) : ℚ := (List.zipWith (fun x y => x * y) a b).sum

/-- Matrix-vector product np.dot(m, v): one dot product per matrix row. -/
def matVec (m : List (List ℚ)) (v : List ℚ) : List ℚ := m.map (fun row => dot row v)

/-- Stabilizer 1e-9 added to volatility denominators in app.py (lines 88 and 110). -/
def eps : ℚ := 1 / 1000000000

/-- Source lines 84-88: the objective handed to the solver.  p_return is
the portfolio return, p_volatility the portfolio volatility (np.sqrt is
the oracle parameter sqrtFn); the function returns the negated excess
return over the stabilized volatility. -/
def negative_sharpe_ratio (sqrtFn : ℚ → ℚ) (weights meanReturns : List ℚ)
    (covMatrix : List (List ℚ)) (riskFreeRate : ℚ) : ℚ :=
  let pReturn := dot weights meanReturns;
  let pVolatility := sqrtFn (dot weights (matVec covMatrix weights));
  -(pReturn - riskFreeRate) / (pVolatility + eps)

/-- A constrained minimization problem as passed to sco.minimize. -/
structure OptProblem where
  objective : List ℚ → ℚ
  eqConstraint : List ℚ → ℚ
  bounds : List (ℚ × ℚ)
  x0 : List ℚ

/-- What sco.minimize hands back: the final iterate and the convergence flag. -/
structure SolverResult where
  x : List ℚ
  success : Bool

/-- Source lines 90-95: the problem built by optimize_portfolio — the
negative Sharpe objective with risk-free rate 0 (the Python default that
the call site leaves in place), the equality constraint sum(weights) - 1,
box bounds (0, 1) for each of the n assets, and the uniform initial
guess num_assets * [1 / num_assets]. -/
def portfolioProblem (sqrtFn : ℚ → ℚ) (meanR : List ℚ) (covM : List (List ℚ)) (n : ℕ) :
    OptProblem where
  objective := fun w => negative_sharpe_ratio sqrtFn w meanR covM 0
  eqConstraint := fun w => w.sum - 1
  bounds := List.replicate n (0, 1)
  x0 := List.replicate n (1 / (n : ℚ))

/-- Source line 97: optimal_weights = solution.x, used as-is with no
renormalization and no inspection of the convergence flag. -/
def optimalWeights (sqrtFn : ℚ → ℚ) (solver : OptProblem → SolverResult)
    (meanR : List ℚ) (covM : List (List ℚ)) (n : ℕ) : List ℚ :=
  (solver (portfolioProblem sqrtFn meanR covM n)).x

/-- Spec formula, for comparison with the source objective: the §4.2 risk-free rate r_f = 0. -/
def specRiskFree : ℚ := 0

/-- Spec formula, for comparison with the source objective: the §4.2 stabilizer ε = 1e-9. -/
def specEpsilon : ℚ := 1 / 1000000000

/-- Spec formula, for comparison with the source objective:
f(w) = -(w·meanReturn - r_f) / (sqrt(w^T · covariance · w) + ε). -/
def specNegativeSharpe (sqrtFn : ℚ → ℚ) (meanR : List ℚ) (covM : List (List ℚ))
    (w : List ℚ) : ℚ :=
  -(dot w meanR - specRiskFree) / (sqrtFn (dot w (matVec covM w)) + specEpsilon)

/-- C1: the Allocation Optimizer hands the solver exactly the problem the
spec describes — objective equal to the spec formula with r_f = 0 and
ε = 1e-9, equality constraint holding iff the weights sum to 1, box
bounds [0, 1] on each of the N assets, uniform initial guess 1/N — and
returns the solver's weight vector unchanged (no renormalization). -/
theorem c1_optimizer_formulation (sqrtFn : ℚ → ℚ) (solver : OptProblem → SolverResult)
    (meanR : List ℚ) (covM : List (List ℚ)) (n : ℕ) :
    optimalWeights sqrtFn solver meanR covM n = (solver (portfolioProblem sqrtFn meanR covM n)).x
    ∧ (∀ w, (portfolioProblem sqrtFn meanR covM n).objective w = specNegativeSharpe sqrtFn meanR covM w)
    ∧ (∀ w, ((portfolioProblem sqrtFn meanR covM n).eqConstraint w = 0 ↔ w.sum = 1))
    ∧ (portfolioProblem sqrtFn meanR covM n).bounds = List.replicate n (0, 1)
    ∧ (portfolioProblem sqrtFn meanR covM n).x0 = List.replicate n (1 / (n : ℚ)) := by
  refine ⟨rfl, fun w => ?_, fun w => ?_, rfl, rfl⟩
  · simp [portfolioProblem, negative_sharpe_ratio, specNegativeSharpe, specRiskFree,
      specEpsilon, eps]
  · simp [portfolioProblem, sub_eq_zero]

/-- Missing-value-aware simple return of one cell: P_t / P_prev - 1,
missing (NaN) whenever either price is missing, as pandas pct_change
propagates NaN with its current default of no forward-filling. -/
def cellReturn (prev cur : Option ℚ) : Option ℚ :=
  match prev, cur with
  | some p, some q => some (q / p - 1)
  | _, _ => none

/-- Row of per-asset returns between two consecutive price rows. -/
def rowReturns (prev cur : List (Option ℚ)) : List (Option ℚ) :=
  List.zipWith cellReturn prev cur

/-- Helper for pctChange: returns of each later row against its predecessor. -/
def pctChangeAux (prev : List (Option ℚ)) (rest : List (List (Option ℚ))) :
    List (List (Option ℚ)) :=
  match rest with
  | [] => []
  | cur :: tail => rowReturns prev cur :: pctChangeAux cur tail

/-- Source line 79, data.pct_change(): same number of rows as the price
matrix, the first row entirely NaN, each later row the simple returns
against the previous row. -/
def pctChange (rows : List (List (Option ℚ))) : List (List (Option ℚ)) :=
  match rows with
  | [] => []
  | first :: rest => first.map (fun _ => none) :: pctChangeAux first rest

/-- Keeps a row only when every cell is present (pandas dropna drops
rows containing any missing value). -/
def allSome (row : List (Option ℚ)) : Option (List ℚ) :=
  match row with
  | [] => some []
  | none :: _ => none
  | some q :: rest => (allSome rest).map (fun t => q :: t)

/-- Source line 79, data.pct_change().dropna(): the cleaned return rows. -/
def cleanReturns (rows : List (List (Option ℚ))) : List (List ℚ) :=
  (pctChange rows).filterMap allSome

/-- Column j of a cleaned return matrix. -/
def colVals (j : ℕ) (rs : List (List ℚ)) : List ℚ := rs.map (fun r => r.getD j 0)

/-- Column mean, as pandas DataFrame.mean on a fully populated column. -/
def colMean (j : ℕ) (rs : List (List ℚ)) : ℚ :=
  (colVals j rs).sum / ((colVals j rs).length : ℚ)

/-- Sample covariance of columns j and k with pandas ddof = 1 (sum of
products of deviations over length - 1; with fewer than 2 rows the
denominator is ≤ 0 and pandas reports the entry as undefined, NaN). -/
def covEntry (j k : ℕ) (rs : List (List ℚ)) : ℚ :=
  (rs.map (fun r => (r.getD j 0 - colMean j rs) * (r.getD k 0 - colMean k rs))).sum /
    ((rs.length : ℚ) - 1)

/-- Source line 80: mean_returns = returns.mean() * 252. -/
def annualMean (n : ℕ) (rs : List (List ℚ)) : List ℚ :=
  (List.range n).map (fun j => colMean j rs * 252)

/-- Source line 81: cov_matrix = returns.cov() * 252. -/
def annualCov (n : ℕ) (rs : List (List ℚ)) : List (List ℚ) :=
  (List.range n).map (fun j => (List.range n).map (fun k => covEntry j k rs * 252))

/-- Spec formula, for comparison with the source: the per-period simple
returns r_t = P_t / P_previous - 1 taken for t = 2..T directly, with no
leading all-NaN row. -/
def specRawReturns (rows : List (List (Option ℚ))) : List (List (Option ℚ)) :=
  match rows with
  | p :: q :: rest => rowReturns p q :: specRawReturns (q :: rest)
  | _ => []

/-- Spec formula, for comparison with the source: per-period returns with
every row containing a missing value dropped. -/
def specPeriodReturns (rows : List (List (Option ℚ))) : List (List ℚ) :=
  (specRawReturns rows).filterMap allSome

/-- Spec formula, for comparison with the source: meanReturn = 252 * mean(r). -/
def specMeanReturn (n : ℕ) (rs : List (List ℚ)) : List ℚ :=
  (List.range n).map (fun j => 252 * colMean j rs)

/-- Spec formula, for comparison with the source: covariance = 252 * cov(r). -/
def specCovariance (n : ℕ) (rs : List (List ℚ)) : List (List ℚ) :=
  (List.range n).map (fun j => (List.range n).map (fun k => 252 * covEntry j k rs))

/-- The all-missing first row produced by pct_change is dropped by
dropna whenever the matrix has at least one column. -/
theorem allSome_map_none (l : List (Option ℚ)) (h : l ≠ []) :
    allSome (l.map (fun _ => (none : Option ℚ))) = none := by
  cases l with
  | nil => exact absurd rfl h
  | cons a t => rfl

/-- The tail rows of pandas pct_change agree with the direct adjacent-row returns. -/
theorem pctChangeAux_eq_specRawReturns (rest : List (List (Option ℚ))) :
    ∀ prev, pctChangeAux prev rest = specRawReturns (prev :: rest) := by
  induction rest with
  | nil => intro prev; rfl
  | cons cur tail ih =>
    intro prev
    simp only [pctChangeAux, specRawReturns, ih cur]

/-- C2: the Return Model Builder computes exactly the spec formulas — the
cleaned per-period simple returns of pct_change().dropna() coincide with
r_t = P_t / P_previous - 1 for t = 2..T with missing-value rows dropped,
mean_returns = returns.mean() * 252 equals 252 * mean(r), and
cov_matrix = returns.cov() * 252 equals 252 * cov(r); the builder is a
pure function with no other transformation.  The hypothesis records that
every price row has at least one column (N ≥ 1, guaranteed upstream
because the ticker list is never empty). -/
theorem c2_return_model_formulas (rows : List (List (Option ℚ))) (n : ℕ)
    (h : ∀ r ∈ rows, r ≠ []) :
    cleanReturns rows = specPeriodReturns rows
    ∧ annualMean n (cleanReturns rows) = specMeanReturn n (specPeriodReturns rows)
    ∧ annualCov n (cleanReturns rows) = specCovariance n (specPeriodReturns rows) := by
  have hmain : cleanReturns rows = specPeriodReturns rows := by
    cases rows with
    | nil => rfl
    | cons first rest =>
      have hfirst : first ≠ [] := h first (List.mem_cons_self first rest)
      simp only [cleanReturns, specPeriodReturns, pctChange, List.filterMap_cons,
        allSome_map_none first hfirst, pctChangeAux_eq_specRawReturns]
  refine ⟨hmain, ?_, ?_⟩
  · rw [hmain]
    unfold annualMean specMeanReturn
    have : (fun j => colMean j (specPeriodReturns rows) * 252) =
        (fun j => 252 * colMean j (specPeriodReturns rows)) := by
      funext j; ring
    rw [this]
  · rw [hmain]
    unfold annualCov specCovariance
    have : (fun j => (List.range n).map (fun k => covEntry j k (specPeriodReturns rows) * 252)) =
        (fun j => (List.range n).map (fun k => 252 * covEntry j k (specPeriodReturns rows))) := by
      funext j
      have : (fun k => covEntry j k (specPeriodReturns rows) * 252) =
          (fun k => 252 * covEntry j k (specPeriodReturns rows)) := by
        funext k; ring
      rw [this]
    rw [this]

/-- Witness for c2_return_model_formulas at a concrete two-row price matrix. -/
theorem c2_return_model_formulas_witness :
    cleanReturns [[some 1], [some 2]] = specPeriodReturns [[some 1], [some 2]] :=
  (c2_return_model_formulas [[some 1], [some 2]] 1 (by decide)).1

/-- Python str.split on a comma: always at least one token, empty tokens
preserved, so the empty string yields one empty token. -/
def splitComma (s : List Char) : List (List Char) :=
  match s with
  | [] => [[]]
  | c :: rest =>
    if c = ',' then [] :: splitComma rest
    else
      match splitComma rest with
      | [] => [[c]]
      | t :: ts => (c :: t) :: ts

/-- Python str.strip: whitespace removed from both ends of the token. -/
def trimChars (l : List Char) : List Char :=
  ((l.dropWhile Char.isWhitespace).reverse.dropWhile Char.isWhitespace).reverse

/-- Source line 71 normalization of one token: ticker.strip().upper(). -/
def normalizeToken (t : List Char) : List Char :=
  (trimChars t).map Char.toUpper

/-- Source line 71: tickers = [ticker.strip().upper() for ticker in tickers_str.split(',')]. -/
def normalizeTickers (s : List Char) : List (List Char) :=
  (splitComma s).map normalizeToken

/-- Source lines 71-73: the input validation — reject when the token list
is empty (which never happens, split always yields a token) or the raw
input string is exactly empty. -/
def validate (s : List Char) : Except String (List (List Char)) :=
  let tickers := normalizeTickers s;
  if tickers.isEmpty || s == [] then Except.error "Ticker list cannot be empty."
  else Except.ok tickers

/-- Downloaded close-price data: a dense frame with a column count and
rows of possibly missing (NaN) adjusted close prices. -/
structure FetchedData where
  ncols : ℕ
  rows : List (List (Option ℚ))

/-- Every cell of the frame is missing (data.isnull().all().all()). -/
def allNull (d : FetchedData) : Bool :=
  d.rows.all (fun r => r.all (fun c => c.isNone))

/-- Source line 76: data.empty or data.isnull().all().all() or
data.shape[1] != len(tickers). -/
def dataInvalid (n : ℕ) (d : FetchedData) : Bool :=
  d.rows.isEmpty || d.ncols == 0 || allNull d || d.ncols != n

/-- Source line 103: a raw random draw normalized by its own sum. -/
def normalizeW (raw : List ℚ) : List ℚ := raw.map (fun x => x / raw.sum)

/-- Source lines 99-104: the sampled portfolio returns — 10000 candidates,
each the dot product of a normalized random draw with mean_returns. -/
def sampleReturnsList (rng : ℕ → List ℚ) (meanR : List ℚ) : List ℚ :=
  (List.range 10000).map (fun k => dot (normalizeW (rng k)) meanR)

/-- Source lines 99-105: the sampled portfolio volatilities of the same
10000 candidates. -/
def sampleVolsList (sqrtFn : ℚ → ℚ) (rng : ℕ → List ℚ) (covM : List (List ℚ)) : List ℚ :=
  (List.range 10000).map
    (fun k => sqrtFn (dot (normalizeW (rng k)) (matVec covM (normalizeW (rng k)))))

/-- Everything the successful branch of optimize_portfolio computes
before rendering: tickers, optimal weights, the sampled cloud and the
three scalar metrics of lines 108-110. -/
structure PipeResult where
  tickers : List (List Char)
  weights : List ℚ
  sampledReturns : List ℚ
  sampledVols : List ℚ
  optReturn : ℚ
  optVol : ℚ
  optSharpe : ℚ

/-- Source lines 79-110 after the data guard: build the return model,
solve, sample, and compute the optimal point's metrics. -/
def pipelineFromReturns (tickers : List (List Char)) (returns : List (List ℚ))
    (sqrtFn : ℚ → ℚ) (solver : OptProblem → SolverResult) (rng : ℕ → List ℚ) : PipeResult :=
  let n := tickers.length;
  let meanR := annualMean n returns;
  let covM := annualCov n returns;
  let w := optimalWeights sqrtFn solver meanR covM n;
  let optR := dot w meanR;
  let optV := sqrtFn (dot w (matVec covM w));
  { tickers := tickers
    weights := w
    sampledReturns := sampleReturnsList rng meanR
    sampledVols := sampleVolsList sqrtFn rng covM
    optReturn := optR
    optVol := optV
    optSharpe := optR / (optV + eps) }

/-- Source lines 75-110 once the ticker list is fixed: guard the fetched
frame, then run the numeric pipeline on its cleaned returns. -/
def pipelineWithData (tickers : List (List Char)) (data : FetchedData)
    (sqrtFn : ℚ → ℚ) (solver : OptProblem → SolverResult) (rng : ℕ → List ℚ) :
    Except String PipeResult :=
  if dataInvalid tickers.length data then
    Except.error "Could not download valid data for all tickers. Please check the company symbols."
  else Except.ok (pipelineFromReturns tickers (cleanReturns data.rows) sqrtFn solver rng)

/-- Source lines 71-110: validate the raw input, fetch prices for the
normalized tickers, then run the numeric pipeline. -/
def pipeline (s : List Char) (fetch : List (List Char) → FetchedData)
    (sqrtFn : ℚ → ℚ) (solver : OptProblem → SolverResult) (rng : ℕ → List ℚ) :
    Except String PipeResult :=
  match validate s with
  | Except.error e => Except.error e
  | Except.ok tickers => pipelineWithData tickers (fetch tickers) sqrtFn solver rng

/-- The scatter chart: sampled (volatility, return) points plus the
highlighted optimal point; the placeholder figure of the error branch
has no points and no optimal star. -/
structure Chart where
  points : List (ℚ × ℚ)
  optPoint : Option (ℚ × ℚ)
deriving DecidableEq

/-- Source line 132: plt.subplots() with nothing drawn on it. -/
def emptyChart : Chart := { points := [], optPoint := none }

/-- Third component of the returned triple: either the three formatted
metric lines of the summary (line 111) or the error text (line 131).
String rendering of the numbers is presentation and kept symbolic. -/
inductive TextSlot where
  | metrics (ret vol sharpe : ℚ)
  | errorText (msg : String)
deriving DecidableEq

/-- The triple optimize_portfolio returns: figure, weights table
(tickers paired with their weights; the two-decimal percent string of
line 107 is presentation and kept as the raw weight), summary text. -/
structure Output where
  chart : Chart
  table : List (List Char × ℚ)
  message : TextSlot
deriving DecidableEq

/-- Source lines 69-133: the whole request handler, with the broad
except branch of lines 130-133 turning any pipeline error into the
well-formed failure triple. -/
def optimize_portfolio (s : List Char) (fetch : List (List Char) → FetchedData)
    (sqrtFn : ℚ → ℚ) (solver : OptProblem → SolverResult) (rng : ℕ → List ℚ) : Output :=
  match pipeline s fetch sqrtFn solver rng with
  | Except.error e =>
    { chart := emptyChart
      table := []
      message := TextSlot.errorText ("An error occurred: " ++ e) }
  | Except.ok r =>
    { chart := { points := r.sampledVols.zip r.sampledReturns
                 optPoint := some (r.optVol, r.optReturn) }
      table := r.tickers.zip r.weights
      message := TextSlot.metrics r.optReturn r.optVol r.optSharpe }

/-- C7: on the exact empty ticker string the handler reaches the failed
terminal output carrying the invalid-input message, for every market-data
collaborator, solver and random stream alike — so the outcome is fixed
before any data fetch can contribute. -/
theorem c7_empty_input_fails_before_fetch (fetch : List (List Char) → FetchedData)
    (sqrtFn : ℚ → ℚ) (solver : OptProblem → SolverResult) (rng : ℕ → List ℚ) :
    optimize_portfolio [] fetch sqrtFn solver rng =
      { chart := emptyChart
        table := []
        message := TextSlot.errorText ("An error occurred: " ++ "Ticker list cannot be empty.") } :=
  rfl

/-- C4: whenever the pipeline raises an error, the top-level broad catch
converts it into the single human-readable message and returns the
well-formed failure triple — empty placeholder chart, empty table, the
error text — with no numeric result alongside; the handler itself is a
total function, so nothing propagates past this boundary. -/
theorem c4_errors_caught_at_boundary (s : List Char) (fetch : List (List Char) → FetchedData)
    (sqrtFn : ℚ → ℚ) (solver : OptProblem → SolverResult) (rng : ℕ → List ℚ) (e : String)
    (h : pipeline s fetch sqrtFn solver rng = Except.error e) :
    optimize_portfolio s fetch sqrtFn solver rng =
      { chart := emptyChart
        table := []
        message := TextSlot.errorText ("An error occurred: " ++ e) } := by
  unfold optimize_portfolio
  rw [h]

/-- Fixed trivial market-data oracle used by concrete witnesses. -/
def fetchNothing : List (List Char) → FetchedData := fun _ => { ncols := 0, rows := [] }

/-- Fixed trivial solver oracle used by concrete witnesses. -/
def solverTrivial : OptProblem → SolverResult := fun _ => { x := [], success := true }

/-- Fixed trivial random stream used by concrete witnesses. -/
def rngTrivial : ℕ → List ℚ := fun _ => [1]

/-- Witness for c4_errors_caught_at_boundary: the empty input makes the
pipeline error, and the handler returns exactly the failure triple. -/
theorem c4_errors_caught_at_boundary_witness :
    optimize_portfolio [] fetchNothing id solverTrivial rngTrivial =
      { chart := emptyChart
        table := []
        message := TextSlot.errorText ("An error occurred: " ++ "Ticker list cannot be empty.") } :=
  c4_errors_caught_at_boundary [] fetchNothing id solverTrivial rngTrivial
    "Ticker list cannot be empty." rfl

/-- Python str.split always yields at least one token. -/
theorem splitComma_ne_nil (s : List Char) : splitComma s ≠ [] := by
  cases s with
  | nil => simp [splitComma]
  | cons c rest =>
    unfold splitComma
    by_cases hc : c = ','
    · simp [hc]
    · simp only [hc, if_false]
      cases splitComma rest with
      | nil => simp
      | cons t ts => simp

/-- Every character of every token of splitComma comes from the input and
is not a comma. -/
theorem mem_of_mem_splitComma (s : List Char) :
    ∀ t ∈ splitComma s, ∀ c ∈ t, c ∈ s ∧ c ≠ ',' := by
  induction s with
  | nil =>
    intro t ht c hc
    simp [splitComma] at ht
    subst ht
    simp at hc
  | cons d rest ih =>
    intro t ht c hc
    unfold splitComma at ht
    by_cases hd : d = ','
    · simp only [hd, if_true] at ht
      rcases List.mem_cons.mp ht with h1 | h1
      · subst h1; simp at hc
      · obtain ⟨hmem, hne⟩ := ih t h1 c hc
        exact ⟨List.mem_cons_of_mem d hmem, hne⟩
    · simp only [hd, if_false] at ht
      rcases hrec : splitComma rest with _ | ⟨g, gs⟩
      · exact absurd hrec (splitComma_ne_nil rest)
      · rw [hrec] at ht
        rcases List.mem_cons.mp ht with h1 | h1
        · subst h1
          rcases List.mem_cons.mp hc with h2 | h2
          · subst h2; exact ⟨List.mem_cons_self c rest, hd⟩
          · obtain ⟨hmem, hne⟩ := ih g (by rw [hrec]; exact List.mem_cons_self g gs) c h2
            exact ⟨List.mem_cons_of_mem d hmem, hne⟩
        · obtain ⟨hmem, hne⟩ := ih t (by rw [hrec]; exact List.mem_cons_of_mem g h1) c hc
          exact ⟨List.mem_cons_of_mem d hmem, hne⟩

/-- dropWhile eats the whole list when the predicate holds everywhere. -/
theorem dropWhile_all_eq_nil (p : Char → Bool) (l : List Char)
    (h : ∀ c ∈ l, p c = true) : l.dropWhile p = [] := by
  induction l with
  | nil => rfl
  | cons a t ih =>
    rw [List.dropWhile_cons]
    simp only [h a (List.mem_cons_self a t), if_true]
    exact ih (fun c hc => h c (List.mem_cons_of_mem a hc))

/-- Stripping a token made only of whitespace leaves the empty token. -/
theorem trimChars_eq_nil (l : List Char) (h : ∀ c ∈ l, c.isWhitespace = true) :
    trimChars l = [] := by
  unfold trimChars
  rw [dropWhile_all_eq_nil Char.isWhitespace l h]
  rfl

/-- A non-empty raw input always passes the line 71-73 validation. -/
theorem validate_ok_of_ne_nil (s : List Char) (h : s ≠ []) :
    validate s = Except.ok (normalizeTickers s) := by
  unfold validate
  have h1 : (normalizeTickers s).isEmpty = false := by
    unfold normalizeTickers
    rcases hsplit : splitComma s with _ | ⟨t, ts⟩
    · exact absurd hsplit (splitComma_ne_nil s)
    · rfl
  have h2 : (s == ([] : List Char)) = false := by
    cases s with
    | nil => exact absurd rfl h
    | cons a t => rfl
  show (if ((normalizeTickers s).isEmpty || s == []) = true then
      (Except.error "Ticker list cannot be empty." : Except String (List (List Char)))
    else Except.ok (normalizeTickers s)) = Except.ok (normalizeTickers s)
  rw [h1, h2]
  rfl

/-- C10: any non-empty input made only of commas and whitespace slips
through the validation — splitting always yields a non-empty token list,
so the emptiness check fires only on the exact empty string — and the
pipeline proceeds to the data fetch with every ticker in the universe
blank. -/
theorem c10_blank_input_not_rejected (s : List Char) (h1 : s ≠ [])
    (h2 : ∀ c ∈ s, c = ',' ∨ c.isWhitespace = true) :
    validate s = Except.ok (normalizeTickers s)
    ∧ (∀ t ∈ normalizeTickers s, t = [])
    ∧ (∀ (fetch : List (List Char) → FetchedData) (sqrtFn : ℚ → ℚ)
        (solver : OptProblem → SolverResult) (rng : ℕ → List ℚ),
        pipeline s fetch sqrtFn solver rng =
          pipelineWithData (normalizeTickers s) (fetch (normalizeTickers s)) sqrtFn solver rng) := by
  have hok := validate_ok_of_ne_nil s h1
  refine ⟨hok, ?_, ?_⟩
  · intro t ht
    unfold normalizeTickers at ht
    obtain ⟨u, hu, hut⟩ := List.mem_map.mp ht
    have hblank : ∀ c ∈ u, c.isWhitespace = true := by
      intro c hc
      obtain ⟨hmem, hne⟩ := mem_of_mem_splitComma s u hu c hc
      rcases h2 c hmem with hcomma | hws
      · exact absurd hcomma hne
      · exact hws
    rw [← hut]
    unfold normalizeToken
    rw [trimChars_eq_nil u hblank]
    rfl
  · intro fetch sqrtFn solver rng
    unfold pipeline
    rw [hok]

/-- Witness for c10_blank_input_not_rejected at the input " , ". -/
theorem c10_blank_input_not_rejected_witness :
    validate [' ', ',', ' '] = Except.ok (normalizeTickers [' ', ',', ' ']) :=
  (c10_blank_input_not_rejected [' ', ',', ' '] (by decide) (by decide)).1

/-- C9 counterexample: the raw input AAPL,AAPL normalizes to a universe
with a duplicate ticker — the code performs no deduplication, so the
claimed no-duplicates invariant of the normalized AssetUniverse is
false. -/
theorem c9_counterexample_duplicates :
    ¬ (normalizeTickers ['A', 'A', 'P', 'L', ',', 'A', 'A', 'P', 'L']).Nodup := by
  decide

/-- C9 (amended): whenever the retrieved frame's column count differs
from the size N of the normalized universe, the pipeline rejects the
request with the data error before any model building — for every
solver and random stream, on any non-empty raw input. -/
theorem c9_amended_shape_mismatch_rejected (s : List Char)
    (fetch : List (List Char) → FetchedData) (sqrtFn : ℚ → ℚ)
    (solver : OptProblem → SolverResult) (rng : ℕ → List ℚ)
    (h1 : s ≠ [])
    (h2 : (fetch (normalizeTickers s)).ncols ≠ (normalizeTickers s).length) :
    pipeline s fetch sqrtFn solver rng =
      Except.error "Could not download valid data for all tickers. Please check the company symbols." := by
  have hinv : dataInvalid (normalizeTickers s).length (fetch (normalizeTickers s)) = true := by
    unfold dataInvalid
    have hb : ((fetch (normalizeTickers s)).ncols != (normalizeTickers s).length) = true :=
      bne_iff_ne.mpr h2
    rw [hb]
    simp
  unfold pipeline
  rw [validate_ok_of_ne_nil s h1]
  show pipelineWithData (normalizeTickers s) (fetch (normalizeTickers s)) sqrtFn solver rng = _
  unfold pipelineWithData
  rw [hinv]
  rfl

/-- Witness for c9_amended_shape_mismatch_rejected: a one-ticker input
against a three-column frame is rejected. -/
theorem c9_amended_shape_mismatch_rejected_witness :
    pipeline ['A'] (fun _ => { ncols := 3, rows := [[some 1]] }) id solverTrivial rngTrivial =
      Except.error "Could not download valid data for all tickers. Please check the company symbols." :=
  c9_amended_shape_mismatch_rejected ['A'] (fun _ => { ncols := 3, rows := [[some 1]] })
    id solverTrivial rngTrivial (by decide) (by decide)

/-- Concrete raw input A,B used by the code-bug demonstrations. -/
def demoInput : List Char := ['A', ',', 'B']

/-- Three clean price rows for two assets: returns exist for two periods. -/
def demoFetchThreeRows : List (List Char) → FetchedData :=
  fun _ => { ncols := 2, rows := [[some 1, some 1], [some 2, some 2], [some 4, some 4]] }

/-- Two price rows for two assets: only one return row survives cleaning,
so the sample covariance (ddof = 1) is undefined. -/
def demoFetchTwoRows : List (List Char) → FetchedData :=
  fun _ => { ncols := 2, rows := [[some 1, some 1], [some 2, some 2]] }

/-- A solver oracle that reports non-convergence yet still carries a
final iterate, as SLSQP does when it stops without converging. -/
def divergedSolver : OptProblem → SolverResult :=
  fun _ => { x := [1 / 2, 1 / 2], success := false }

/-- A solver oracle that returns the initial guess and reports convergence. -/
def convergedSolver : OptProblem → SolverResult :=
  fun p => { x := p.x0, success := true }

/-- Evaluation helper: the validated universe of the demo input. -/
theorem demo_validate : validate demoInput = Except.ok [['A'], ['B']] := rfl

/-- Evaluation helper: cleaned returns of the three-row demo frame. -/
theorem demo_clean_three :
    cleanReturns (demoFetchThreeRows [['A'], ['B']]).rows = [[1, 1], [1, 1]] := by
  norm_num [demoFetchThreeRows, cleanReturns, pctChange, pctChangeAux, rowReturns, cellReturn,
    allSome, List.filterMap_cons, List.filterMap_nil]

/-- Evaluation helper: cleaned returns of the two-row demo frame. -/
theorem demo_clean_two :
    cleanReturns (demoFetchTwoRows [['A'], ['B']]).rows = [[1, 1]] := by
  norm_num [demoFetchTwoRows, cleanReturns, pctChange, pctChangeAux, rowReturns, cellReturn,
    allSome, List.filterMap_cons, List.filterMap_nil]

/-- Evaluation helper: annualized means of the two-period demo returns. -/
theorem demo_mean_three : annualMean 2 [[(1 : ℚ), 1], [1, 1]] = [252, 252] := by
  norm_num [annualMean, colMean, colVals, show List.range 2 = [0, 1] from rfl]

/-- Evaluation helper: annualized covariance of the two-period demo returns. -/
theorem demo_cov_three : annualCov 2 [[(1 : ℚ), 1], [1, 1]] = [[0, 0], [0, 0]] := by
  norm_num [annualCov, covEntry, colMean, colVals, show List.range 2 = [0, 1] from rfl]

/-- Evaluation helper: annualized means of the single demo return row. -/
theorem demo_mean_two : annualMean 2 [[(1 : ℚ), 1]] = [252, 252] := by
  norm_num [annualMean, colMean, colVals, show List.range 2 = [0, 1] from rfl]

/-- Evaluation helper: with one return row the ddof = 1 covariance is the
0/0 form, rendered 0 under the rational division convention (NaN in pandas). -/
theorem demo_cov_two : annualCov 2 [[(1 : ℚ), 1]] = [[0, 0], [0, 0]] := by
  norm_num [annualCov, covEntry, colMean, colVals, show List.range 2 = [0, 1] from rfl]

/-- Evaluation helper: the demo pipeline run with the diverged solver
reaches the success branch. -/
theorem demo_pipeline_three :
    pipeline demoInput demoFetchThreeRows id divergedSolver rngTrivial =
      Except.ok (pipelineFromReturns [['A'], ['B']] [[1, 1], [1, 1]] id divergedSolver
        rngTrivial) := by
  unfold pipeline
  rw [demo_validate]
  show pipelineWithData [['A'], ['B']] (demoFetchThreeRows [['A'], ['B']]) id divergedSolver
    rngTrivial = _
  unfold pipelineWithData
  rw [demo_clean_three]
  rfl

/-- Evaluation helper: the demo pipeline run on the two-row frame reaches
the success branch. -/
theorem demo_pipeline_two :
    pipeline demoInput demoFetchTwoRows id convergedSolver rngTrivial =
      Except.ok (pipelineFromReturns [['A'], ['B']] [[1, 1]] id convergedSolver rngTrivial) := by
  unfold pipeline
  rw [demo_validate]
  show pipelineWithData [['A'], ['B']] (demoFetchTwoRows [['A'], ['B']]) id convergedSolver
    rngTrivial = _
  unfold pipelineWithData
  rw [demo_clean_two]
  rfl

/-- C3: the code never inspects solution.success — with a solver run that
reports non-convergence, the handler still returns the non-converged
weight vector as the recommended allocation together with metrics
computed from it, instead of failing with any error. -/
theorem c3_divergence_used_not_rejected :
    (divergedSolver (portfolioProblem id [252, 252] [[0, 0], [0, 0]] 2)).success = false
    ∧ (optimize_portfolio demoInput demoFetchThreeRows id divergedSolver rngTrivial).table =
        [(['A'], (1 : ℚ) / 2), (['B'], (1 : ℚ) / 2)]
    ∧ (optimize_portfolio demoInput demoFetchThreeRows id divergedSolver rngTrivial).message =
        TextSlot.metrics 252 0 252000000000 := by
  refine ⟨rfl, ?_, ?_⟩ <;>
  · unfold optimize_portfolio
    rw [demo_pipeline_three]
    norm_num [pipelineFromReturns, optimalWeights, divergedSolver, demo_mean_three,
      demo_cov_three, dot, matVec, eps]

/-- C6: with fewer than 2 valid return rows the code raises nothing — the
single cleaned return row makes the ddof = 1 covariance undefined (NaN in
pandas, the 0/0 convention here), yet the handler returns a normal
metrics output rather than any InsufficientDataError-style failure. -/
theorem c6_no_insufficient_data_check :
    (cleanReturns (demoFetchTwoRows (normalizeTickers demoInput)).rows).length = 1
    ∧ (optimize_portfolio demoInput demoFetchTwoRows id convergedSolver rngTrivial).message =
        TextSlot.metrics 252 0 252000000000 := by
  constructor
  · show (cleanReturns (demoFetchTwoRows [['A'], ['B']]).rows).length = 1
    rw [demo_clean_two]
    rfl
  · unfold optimize_portfolio
    rw [demo_pipeline_two]
    norm_num [pipelineFromReturns, optimalWeights, convergedSolver, portfolioProblem,
      demo_mean_two, demo_cov_two, dot, matVec, eps, List.replicate]

/-- Dividing every element by a constant divides the sum. -/
theorem sum_map_div (l : List ℚ) (c : ℚ) :
    (l.map (fun x => x / c)).sum = l.sum / c := by
  induction l with
  | nil => simp
  | cons a t ih => simp [ih, add_div]

/-- A raw draw with nonzero sum normalizes to weights summing to exactly 1. -/
theorem normalizeW_sum (raw : List ℚ) (h : raw.sum ≠ 0) :
    (normalizeW raw).sum = 1 := by
  unfold normalizeW
  rw [sum_map_div]
  exact div_self h

/-- C5: the Random Allocation Sampler produces exactly K = 10000 sampled
returns and volatilities; the k-th candidate is the k-th raw draw divided
by its own sum — summing to exactly 1 whenever the draws do not sum to
zero, which holds almost surely for uniform[0,1) draws — and its return
and risk are w·meanReturn and sqrt(w^T·covariance·w). -/
theorem c5_sampler_contract (sqrtFn : ℚ → ℚ) (rng : ℕ → List ℚ) (meanR : List ℚ)
    (covM : List (List ℚ)) (h : ∀ k, 0 < (rng k).sum) :
    (sampleReturnsList rng meanR).length = 10000
    ∧ (sampleVolsList sqrtFn rng covM).length = 10000
    ∧ (∀ k, k < 10000 →
        (normalizeW (rng k)).sum = 1
        ∧ (sampleReturnsList rng meanR)[k]? = some (dot (normalizeW (rng k)) meanR)
        ∧ (sampleVolsList sqrtFn rng covM)[k]? =
            some (sqrtFn (dot (normalizeW (rng k)) (matVec covM (normalizeW (rng k)))))) := by
  refine ⟨by simp [sampleReturnsList], by simp [sampleVolsList], ?_⟩
  intro k hk
  refine ⟨normalizeW_sum (rng k) (ne_of_gt (h k)), ?_, ?_⟩
  · unfold sampleReturnsList
    rw [List.getElem?_map, List.getElem?_range hk]
    rfl
  · unfold sampleVolsList
    rw [List.getElem?_map, List.getElem?_range hk]
    rfl

/-- Fixed positive random stream used by the c5 witness. -/
def rngPositive : ℕ → List ℚ := fun _ => [2]

/-- Witness for c5_sampler_contract: the positive-sum hypothesis holds
for a concrete stream and the sampled cloud has exactly 10000 members. -/
theorem c5_sampler_contract_witness :
    (sampleReturnsList rngPositive [1]).length = 10000 :=
  (c5_sampler_contract id rngPositive [1] [[1]]
    (fun k => by norm_num [rngPositive])).1

/-- Rescaling of one possibly missing price cell. -/
def scaleCell (c : ℚ) (cell : Option ℚ) : Option ℚ := cell.map (fun p => c * p)

/-- Rescaling of a whole price matrix by a constant. -/
def scaleRows (c : ℚ) (rows : List (List (Option ℚ))) : List (List (Option ℚ)) :=
  rows.map (fun r => r.map (scaleCell c))

/-- Rescaling of a fetched frame: same shape, every price multiplied by c. -/
def scaleFetched (c : ℚ) (d : FetchedData) : FetchedData :=
  { ncols := d.ncols, rows := scaleRows c d.rows }

/-- Simple returns are invariant under a nonzero price rescaling, cell by cell. -/
theorem cellReturn_scale (c : ℚ) (hc : c ≠ 0) (a b : Option ℚ) :
    cellReturn (scaleCell c a) (scaleCell c b) = cellReturn a b := by
  cases a with
  | none => cases b <;> rfl
  | some p =>
    cases b with
    | none => rfl
    | some q =>
      simp only [scaleCell, Option.map_some', cellReturn]
      rw [mul_div_mul_left q p hc]

/-- Row-level version of cellReturn_scale. -/
theorem rowReturns_scale (c : ℚ) (hc : c ≠ 0) (p : List (Option ℚ)) :
    ∀ q, rowReturns (p.map (scaleCell c)) (q.map (scaleCell c)) = rowReturns p q := by
  induction p with
  | nil => intro q; rfl
  | cons a t ih =>
    intro q
    cases q with
    | nil => rfl
    | cons b u =>
      simp only [List.map_cons, rowReturns, List.zipWith_cons_cons,
        cellReturn_scale c hc a b]
      exact congrArg _ (ih u)

/-- The tail of pct_change is invariant under nonzero price rescaling. -/
theorem pctChangeAux_scale (c : ℚ) (hc : c ≠ 0) (rest : List (List (Option ℚ))) :
    ∀ prev, pctChangeAux (prev.map (scaleCell c)) (rest.map (fun r => r.map (scaleCell c))) =
      pctChangeAux prev rest := by
  induction rest with
  | nil => intro prev; rfl
  | cons cur tail ih =>
    intro prev
    simp only [List.map_cons, pctChangeAux, rowReturns_scale c hc prev cur, ih cur]

/-- pct_change is invariant under nonzero price rescaling. -/
theorem pctChange_scale (c : ℚ) (hc : c ≠ 0) (rows : List (List (Option ℚ))) :
    pctChange (scaleRows c rows) = pctChange rows := by
  cases rows with
  | nil => rfl
  | cons first rest =>
    simp only [scaleRows, List.map_cons, pctChange, List.map_map,
      pctChangeAux_scale c hc rest first]
    rfl

/-- The cleaned return matrix is invariant under nonzero price rescaling. -/
theorem cleanReturns_scale (c : ℚ) (hc : c ≠ 0) (rows : List (List (Option ℚ))) :
    cleanReturns (scaleRows c rows) = cleanReturns rows := by
  unfold cleanReturns
  rw [pctChange_scale c hc]

/-- The line 76 data guard is invariant under price rescaling: emptiness,
the missingness pattern and the shape are all preserved. -/
theorem dataInvalid_scale (c : ℚ) (n : ℕ) (d : FetchedData) :
    dataInvalid n (scaleFetched c d) = dataInvalid n d := by
  unfold dataInvalid scaleFetched allNull scaleRows
  have hempty : (d.rows.map (fun r => r.map (scaleCell c))).isEmpty = d.rows.isEmpty := by
    cases d.rows <;> rfl
  have hnull : ∀ r : List (Option ℚ),
      (r.map (scaleCell c)).all (fun x => x.isNone) = r.all (fun x => x.isNone) := by
    intro r
    induction r with
    | nil => rfl
    | cons a t ih =>
      cases a <;> simp [scaleCell, ih]
  simp only [List.all_map]
  rw [hempty]
  have : (fun r : List (Option ℚ) => (r.map (scaleCell c)).all fun x => x.isNone) =
      (fun r : List (Option ℚ) => r.all fun x => x.isNone) := funext hnull
  simp only [Function.comp_def, this]

/-- C8: multiplying every price in the fetched matrix by a positive
constant changes nothing observable — the handler's entire output,
optimal weights included, is identical, because simple returns are
scale-invariant ratios. -/
theorem c8_price_scaling_invariance (c : ℚ) (hc : 0 < c) (s : List Char)
    (fetch : List (List Char) → FetchedData) (sqrtFn : ℚ → ℚ)
    (solver : OptProblem → SolverResult) (rng : ℕ → List ℚ) :
    optimize_portfolio s (fun ts => scaleFetched c (fetch ts)) sqrtFn solver rng =
      optimize_portfolio s fetch sqrtFn solver rng := by
  have hc0 : c ≠ 0 := ne_of_gt hc
  have hpipe : pipeline s (fun ts => scaleFetched c (fetch ts)) sqrtFn solver rng =
      pipeline s fetch sqrtFn solver rng := by
    unfold pipeline
    cases hval : validate s with
    | error e => rfl
    | ok tickers =>
      show pipelineWithData tickers (scaleFetched c (fetch tickers)) sqrtFn solver rng =
        pipelineWithData tickers (fetch tickers) sqrtFn solver rng
      unfold pipelineWithData
      rw [dataInvalid_scale c tickers.length (fetch tickers)]
      rw [show (scaleFetched c (fetch tickers)).rows = scaleRows c (fetch tickers).rows from rfl]
      rw [cleanReturns_scale c hc0]
  unfold optimize_portfolio
  rw [hpipe]

/-- Witness for c8_price_scaling_invariance: doubling all prices of a
concrete frame leaves the concrete run unchanged. -/
theorem c8_price_scaling_invariance_witness :
    optimize_portfolio demoInput (fun ts => scaleFetched 2 (demoFetchThreeRows ts)) id
        divergedSolver rngTrivial =
      optimize_portfolio demoInput demoFetchThreeRows id divergedSolver rngTrivial :=
  c8_price_scaling_invariance 2 (by norm_num) demoInput demoFetchThreeRows id
    divergedSolver rngTrivial
